import Mathlib

/-!
Verification of the illust-salmap training/evaluation pipeline.

Shallow embedding of the repository's core operations:
* `src/dataset/imp1k.py` — `Imp1kDataset.cache_image_map_paths`, `__getitem__`
* `src/dataset/salicon.py` — `SALICONDataset.cache_image_map_paths`, `__getitem__`
* `src/illust_salmap/training/train.py` — `train`, `validation`, `test`
* `src/illust_salmap/models/saliency_model.py` — snapshot hooks and
  `training_step`.

File paths are modelled as strings with `/` as separator; Python `sorted`
on strings is lexicographic on code points, modelled by an insertion sort
over Lean's `String` order (also code-point lexicographic).  Python floats
are idealised as rationals; a float division by zero raises
`ZeroDivisionError`, modelled with an explicit error value.
-/

namespace IllustSalmap

/-- The characters after the last `/` of a character sequence. -/
def basenameChars (cs : List Char) : List Char :=
  cs.foldl (fun acc c => if c = '/' then [] else acc ++ [c]) []

/-- `os.path.basename`: the final path component (text after the last `/`). -/
def basename (p : String) : String := String.mk (basenameChars p.data)

/-- Lexicographic comparison of character sequences by code point. -/
def charListLe : List Char → List Char → Bool
  | [], _ => true
  | _ :: _, [] => false
  | x :: xs, y :: ys =>
    if x.toNat < y.toNat then true
    else if y.toNat < x.toNat then false
    else charListLe xs ys

/-- The string order Python `sorted` uses: lexicographic by code point. -/
def strLe (a b : String) : Bool := charListLe a.data b.data

/-- Insert a string into a sorted list, keeping ascending order. -/
def insertSorted (x : String) : List String → List String
  | [] => [x]
  | y :: ys => if strLe x y then x :: y :: ys else y :: insertSorted x ys

/-- Python `sorted` on a list of path strings (ascending lexicographic). -/
def sortPaths (l : List String) : List String := l.foldr insertSorted []

theorem length_insertSorted (x : String) (l : List String) :
    (insertSorted x l).length = l.length + 1 := by
  induction l with
  | nil => rfl
  | cons y ys ih =>
    simp only [insertSorted]
    split <;> simp [ih]

theorem length_sortPaths (l : List String) : (sortPaths l).length = l.length := by
  induction l with
  | nil => rfl
  | cons x xs ih =>
    simpa [sortPaths, List.foldr, length_insertSorted] using ih

/-- `Imp1kDataset.cache_image_map_paths`, inner loop for one category
(imp1k.py lines 55–61): sort both glob listings, zip positionally, and keep
only the pairs whose basenames are equal. -/
def imp1kCategoryPairs (images maps : List String) : List (String × String) :=
  ((sortPaths images).zip (sortPaths maps)).filter
    (fun p => basename p.1 == basename p.2)

/-- The full loop over categories of `Imp1kDataset.cache_image_map_paths`:
`listing c` stands for the pair of glob results
(`imgs/{c}/*.jpg`, `maps/{c}/*.jpg`). -/
def imp1kBuildPairs (listing : String → List String × List String)
    (cats : List String) : List (String × String) :=
  cats.foldl (fun acc c => acc ++ imp1kCategoryPairs (listing c).1 (listing c).2) []

/-- The mutable fields of `Imp1kDataset` relevant to catalog building:
`cache_image_map_paths_cashed` and `image_map_pair_cache`. -/
structure Imp1kState where
  cached : Bool
  pairs : List (String × String)
deriving DecidableEq, Repr

/-- State after `__init__` set the flag to `False` and the cache to `[]`,
just before the constructor's call to `cache_image_map_paths`. -/
def imp1kInit : Imp1kState := { cached := false, pairs := [] }

/-- `Imp1kDataset.cache_image_map_paths` (imp1k.py lines 47–61): return
early when the cached flag is set, otherwise append the built pairs to
`image_map_pair_cache`.  As in the source, the flag is never set to `True`. -/
def cache_image_map_paths (listing : String → List String × List String)
    (cats : List String) (s : Imp1kState) : Imp1kState :=
  if s.cached then s
  else { s with pairs := s.pairs ++ imp1kBuildPairs listing cats }

/-- `SALICONDataset.cache_image_map_paths`, inner pairing for one category
(salicon.py lines 40–43): sort both listings and zip positionally — no
basename check. -/
def saliconCategoryPairs (images maps : List String) : List (String × String) :=
  (sortPaths images).zip (sortPaths maps)

/-- The mutable field of `SALICONDataset` relevant to catalog building:
`image_map_pair_cache`.  There is no cached flag in this variant. -/
structure SALICONState where
  pairs : List (String × String)
deriving DecidableEq, Repr

/-- `SALICONDataset.cache_image_map_paths` (salicon.py lines 35–43):
`listing c` stands for (`{c}/images/*.jpg`, `{c}/maps/*.png`); each
category's zip is extended onto `image_map_pair_cache`. -/
def salicon_cache_image_map_paths (listing : String → List String × List String)
    (cats : List String) (s : SALICONState) : SALICONState :=
  { pairs := cats.foldl
      (fun acc c => acc ++ saliconCategoryPairs (listing c).1 (listing c).2) s.pairs }

/-! ### `__getitem__`: Python list indexing and transform resolution -/

/-- Semantics of Python's `list[index]` with an `int` index: a negative
index is shifted by the length; an index out of `[0, len)` after the shift
raises `IndexError`, modelled as `none`. -/
def pyListGetItem {α : Type} (l : List α) (i : Int) : Option α :=
  let j := if i < 0 then i + l.length else i
  if 0 ≤ j then l.get? j.toNat else none

/-- The path-lookup step of `Imp1kDataset.__getitem__` (imp1k.py line 67):
`self.image_map_pair_cache[index]`. -/
def imp1k_getitem_paths (s : Imp1kState) (i : Int) : Option (String × String) :=
  pyListGetItem s.pairs i

/-- The path-lookup step of `SALICONDataset.__getitem__` (salicon.py
line 49): `self.image_map_pair_cache[index]`. -/
def salicon_getitem_paths (s : SALICONState) (i : Int) : Option (String × String) :=
  pyListGetItem s.pairs i

/-- The transform-application part of `Imp1kDataset.__getitem__`
(imp1k.py lines 72–78): apply `image_transform` to the image when
configured; apply `map_transform` to the map when configured, else fall
back to `image_transform` when that one is configured, else pass through. -/
def imp1k_getitem_transforms {γ : Type} (imageT mapT : Option (γ → γ))
    (image mapImage : γ) : γ × γ :=
  let image' := match imageT with
    | some f => f image
    | none => image
  let map' := match mapT with
    | some g => g mapImage
    | none => match imageT with
      | some f => f mapImage
      | none => mapImage
  (image', map')

/-- The transform-application part of `SALICONDataset.__getitem__`
(salicon.py lines 54–60): the whole map-transform resolution is nested
inside `if self.image_transform is not None:`, so nothing is applied to
either tensor when `image_transform` is absent. -/
def salicon_getitem_transforms {γ : Type} (imageT mapT : Option (γ → γ))
    (image mapImage : γ) : γ × γ :=
  match imageT with
  | some f =>
    let image' := f image
    let map' := match mapT with
      | some g => g mapImage
      | none => f mapImage
    (image', map')
  | none => (image, mapImage)

/-! ### Epoch runners (`src/illust_salmap/training/train.py`)

Model parameters are an abstract state `σ`, batches are `(image,
ground_truth)` pairs in `α × β`, losses are rationals.  The model forward
pass, the criterion, and the effect of `loss.backward(); optimizer.step()`
on the parameters are the external collaborators of the runners. -/

/-- The collaborators a runner invocation closes over: `model(image)`,
`criterion(predict, ground_truth)`, and the parameter update performed by
`loss.backward()` followed by `optimizer.step()` on one batch. -/
structure RunnerEnv (σ α β : Type) where
  forward : σ → α → β
  criterion : β → β → ℚ
  update : σ → α × β → σ

/-- A Python float division by zero raises `ZeroDivisionError`.
`zeroBatches` is the dedicated error the specification postulates for an
empty epoch; nothing in the code raises it. -/
inductive PyError
  | zeroDivisionError
  | zeroBatches
deriving DecidableEq, Repr

/-- `epoch_loss / len(dataloader)` with Python semantics: raises
`ZeroDivisionError` when the dataloader is empty. -/
def pyDivMean (total : ℚ) (n : Nat) : Except PyError ℚ :=
  if n = 0 then Except.error PyError.zeroDivisionError
  else Except.ok (total / n)

/-- One iteration of the loop in `train` (train.py lines 15–25): forward,
loss, `loss.backward(); optimizer.step()`.  Returns the updated parameters
and the batch loss added to `epoch_loss`. -/
def trainStep {σ α β : Type} (env : RunnerEnv σ α β) (θ : σ) (b : α × β) :
    σ × ℚ :=
  let predict := env.forward θ b.1
  let loss := env.criterion predict b.2
  (env.update θ b, loss)

/-- The per-batch losses a `train` call accumulates, in order: each loss is
computed with the parameters as updated by the preceding batches. -/
def trainLosses {σ α β : Type} (env : RunnerEnv σ α β) (θ : σ) :
    List (α × β) → List ℚ
  | [] => []
  | b :: bs =>
    let s := trainStep env θ b
    s.2 :: trainLosses env s.1 bs

/-- The loop body of `train`: thread the parameters through `trainStep`
and add the batch loss onto `epoch_loss`. -/
def trainFold {σ α β : Type} (env : RunnerEnv σ α β) (acc : σ × ℚ)
    (b : α × β) : σ × ℚ :=
  let s := trainStep env acc.1 b
  (s.1, acc.2 + s.2)

/-- `train` (train.py lines 12–27): loop over the batches accumulating
`epoch_loss` and updating the parameters, then return
`{"loss": epoch_loss / len(dataloader)}`. -/
def train {σ α β : Type} (env : RunnerEnv σ α β) (θ : σ)
    (batches : List (α × β)) : σ × Except PyError ℚ :=
  ((batches.foldl (trainFold env) (θ, 0)).1,
   pyDivMean (batches.foldl (trainFold env) (θ, 0)).2 batches.length)

/-- One iteration of the loop in `validation` (train.py lines 34–39):
forward and loss under `@torch.no_grad()`; no backward, no optimizer. -/
def validationStep {σ α β : Type} (env : RunnerEnv σ α β) (θ : σ)
    (b : α × β) : ℚ :=
  env.criterion (env.forward θ b.1) b.2

/-- `validation` (train.py lines 30–41): the parameters are returned as
they came in — the function body contains no backward pass and no
optimizer step. -/
def validation {σ α β : Type} (env : RunnerEnv σ α β) (θ : σ)
    (batches : List (α × β)) : σ × Except PyError ℚ :=
  (θ, pyDivMean (batches.foldl (fun s b => s + validationStep env θ b) 0)
        batches.length)

/-- One iteration of the loop in `test` (train.py lines 57–62), identical
in body to a validation iteration. -/
def testStep {σ α β : Type} (env : RunnerEnv σ α β) (θ : σ) (b : α × β) : ℚ :=
  env.criterion (env.forward θ b.1) b.2

/-- `test` (train.py lines 51–64): same shape as `validation`. -/
def test {σ α β : Type} (env : RunnerEnv σ α β) (θ : σ)
    (batches : List (α × β)) : σ × Except PyError ℚ :=
  (θ, pyDivMean (batches.foldl (fun s b => s + testStep env θ b) 0)
        batches.length)

/-! ### Snapshot hooks (`src/illust_salmap/models/saliency_model.py`) -/

/-- `SaliencyModel.on_train_batch_end` guard (saliency_model.py line 145):
`batch_idx == self.trainer.num_training_batches - 1`, Python integers. -/
def on_train_batch_end_trigger (numTrainingBatches batchIdx : Nat) : Bool :=
  (batchIdx : Int) == (numTrainingBatches : Int) - 1

/-- `SaliencyModel.on_validation_batch_end` guard (line 158):
`batch_idx == 0`. -/
def on_validation_batch_end_trigger (batchIdx : Nat) : Bool :=
  (batchIdx : Int) == 0

/-- `SaliencyModel.on_test_batch_end` guard (line 170):
`batch_idx == self.trainer.num_test_batches[0] - 1`. -/
def on_test_batch_end_trigger (numTestBatches batchIdx : Nat) : Bool :=
  (batchIdx : Int) == (numTestBatches : Int) - 1

/-- The prediction computed inside `SaliencyModel.training_step`
(saliency_model.py line 54), with the parameters as they were at the start
of the batch; the loss and all metric updates of that batch use it. -/
def training_step_predict {σ α β : Type} (env : RunnerEnv σ α β) (θ : σ)
    (b : α × β) : β :=
  env.forward θ b.1

/-- The parameters after `SaliencyModel.training_step` ran
`self.manual_backward(loss); optimizer.step()` (lines 77–78). -/
def training_step_params {σ α β : Type} (env : RunnerEnv σ α β) (θ : σ)
    (b : α × β) : σ :=
  env.update θ b

/-- Lightning invokes `on_train_batch_end` after `training_step` for the
same batch; on the final batch the hook recomputes
`predict = self.forward(image)` (line 148) with the now-updated
parameters.  Returns the post-step parameters and the snapshot prediction. -/
def trainBatchThenHook {σ α β : Type} (env : RunnerEnv σ α β) (θ : σ)
    (b : α × β) : σ × β :=
  let θ' := training_step_params env θ b
  (θ', env.forward θ' b.1)

/-! ### Helper lemmas -/

theorem mem_foldl_append {γ δ : Type} (f : γ → List δ) (cats : List γ)
    (acc : List δ) (p : δ)
    (h : p ∈ cats.foldl (fun a c => a ++ f c) acc) :
    p ∈ acc ∨ ∃ c ∈ cats, p ∈ f c := by
  induction cats generalizing acc with
  | nil => exact Or.inl h
  | cons c cs ih =>
    rcases ih (acc ++ f c) h with h' | ⟨c', hc', hp⟩
    · rcases List.mem_append.mp h' with h'' | h''
      · exact Or.inl h''
      · exact Or.inr ⟨c, List.mem_cons_self c cs, h''⟩
    · exact Or.inr ⟨c', List.mem_cons_of_mem c hc', hp⟩

theorem mem_imp1kCategoryPairs {images maps : List String}
    {p : String × String} (h : p ∈ imp1kCategoryPairs images maps) :
    basename p.1 = basename p.2 := by
  have := List.of_mem_filter h
  exact eq_of_beq this

/-! ### C1 — basename invariant of built catalogs -/

/-- C1, counterexample: the claim asserts the basename invariant for both
dataset variants, but `SALICONDataset.cache_image_map_paths` zips the two
sorted listings without any basename comparison; already because images
are `*.jpg` and maps are `*.png`, a pair with differing basenames is kept
in the catalog. -/
theorem C1_salicon_pair_with_differing_basenames :
    (salicon_cache_image_map_paths
        (fun _ => (["r/train/images/1.jpg"], ["r/train/maps/1.png"]))
        ["train"] ⟨[]⟩).pairs
      = [("r/train/images/1.jpg", "r/train/maps/1.png")]
    ∧ basename "r/train/images/1.jpg" ≠ basename "r/train/maps/1.png" := by
  constructor
  · rfl
  · decide

/-- C1, amended: in the `Imp1kDataset` variant every catalog entry
satisfies `basename(image_path) = basename(map_path)`, because each
positional pair failing the filename-equality filter is dropped without
raising; the SALICON variant performs no such check. -/
theorem C1_imp1k_basename_invariant
    (listing : String → List String × List String) (cats : List String)
    (p : String × String)
    (h : p ∈ (cache_image_map_paths listing cats imp1kInit).pairs) :
    basename p.1 = basename p.2 := by
  simp only [cache_image_map_paths, imp1kInit, Bool.false_eq_true, if_false,
    List.nil_append] at h
  rcases mem_foldl_append _ cats [] p h with h' | ⟨c, _, hp⟩
  · simp at h'
  · exact mem_imp1kCategoryPairs hp

/-- C1, witness: a concrete one-category Imp1k build containing the pair
`("i/a.jpg", "m/a.jpg")`, whose basenames the theorem proves equal. -/
theorem C1_imp1k_basename_invariant_witness :
    basename "i/a.jpg" = basename "m/a.jpg" :=
  C1_imp1k_basename_invariant (fun _ => (["i/a.jpg"], ["m/a.jpg"])) ["ads"]
    ("i/a.jpg", "m/a.jpg") (by decide)

/-! ### C2 — idempotency of catalog build -/

/-- C2: the claim (and the spec) state that a second build request is a
no-op, but `Imp1kDataset.__init__` sets `cache_image_map_paths_cashed =
False` and `cache_image_map_paths` only reads the flag — no code path ever
sets it to `True` — so a second call appends a duplicate copy of every
pair; `SALICONDataset` has no guard at all and duplicates likewise. -/
theorem C2_second_build_duplicates :
    (cache_image_map_paths (fun _ => (["i/a.jpg"], ["m/a.jpg"])) ["ads"]
        imp1kInit).pairs.length = 1
    ∧ (cache_image_map_paths (fun _ => (["i/a.jpg"], ["m/a.jpg"])) ["ads"]
        imp1kInit).cached = false
    ∧ (cache_image_map_paths (fun _ => (["i/a.jpg"], ["m/a.jpg"])) ["ads"]
        (cache_image_map_paths (fun _ => (["i/a.jpg"], ["m/a.jpg"])) ["ads"]
          imp1kInit)).pairs.length = 2
    ∧ (salicon_cache_image_map_paths
        (fun _ => (["i/a.jpg"], ["m/a.png"])) ["train"]
        (salicon_cache_image_map_paths
          (fun _ => (["i/a.jpg"], ["m/a.png"])) ["train"]
          ⟨[]⟩)).pairs.length = 2 := by
  refine ⟨rfl, rfl, rfl, rfl⟩

/-! ### C8 — positional zip, length bound, and the mismatch scenario -/

/-- C8, counterexample: the claimed scenario result ignores that both
listings are sorted before zipping.  `sorted` places `m/X.jpg` first
(`X` < `a` by code point), so the zip pairs `a` with `X`, `b` with `a`,
and `c` with `c`; only `(c.jpg, c.jpg)` passes the basename filter and the
catalog has length 1, not 2. -/
theorem C8_scenario_after_sort :
    imp1kCategoryPairs ["i/a.jpg", "i/b.jpg", "i/c.jpg"]
        ["m/a.jpg", "m/X.jpg", "m/c.jpg"]
      = [("i/c.jpg", "m/c.jpg")]
    ∧ (imp1kCategoryPairs ["i/a.jpg", "i/b.jpg", "i/c.jpg"]
        ["m/a.jpg", "m/X.jpg", "m/c.jpg"]).length ≠ 2 := by
  refine ⟨rfl, by decide⟩

/-- C8, amended: pairing is a positional zip after independent sorts, so a
category contributes at most `min(count_images, count_maps)` pairs, extra
files of the longer listing silently dropped; in the concrete scenario the
sort reorders the maps to `[X.jpg, a.jpg, c.jpg]` and the surviving pairs
are exactly `[(c.jpg, c.jpg)]`, length 1. -/
theorem C8_positional_zip_bound (images maps : List String) :
    (imp1kCategoryPairs images maps).length ≤ min images.length maps.length
    ∧ imp1kCategoryPairs ["i/a.jpg", "i/b.jpg", "i/c.jpg"]
        ["m/a.jpg", "m/X.jpg", "m/c.jpg"]
      = [("i/c.jpg", "m/c.jpg")] := by
  constructor
  · calc (imp1kCategoryPairs images maps).length
        ≤ ((sortPaths images).zip (sortPaths maps)).length :=
          List.length_filter_le _ _
      _ = min (sortPaths images).length (sortPaths maps).length :=
          List.length_zip _ _
      _ = min images.length maps.length := by
          rw [length_sortPaths, length_sortPaths]
  · rfl

/-! ### C3 — snapshot trigger policy -/

theorem filter_range_beq (n m : Nat) (h : m < n) :
    (List.range n).filter (fun i => i == m) = [m] := by
  induction n with
  | zero => omega
  | succ k ih =>
    rw [List.range_succ, List.filter_append]
    rcases Nat.lt_or_ge m k with hk | hk
    · rw [ih hk]
      have hkm : (k == m) = false := by
        simp only [beq_eq_false_iff_ne, ne_eq]
        omega
      simp [hkm]
    · have hm : m = k := by omega
      subst hm
      have hnil : (List.range m).filter (fun i => i == m) = [] := by
        rw [List.filter_eq_nil_iff]
        intro a ha
        simp only [List.mem_range] at ha
        simp only [beq_iff_eq]
        omega
      simp [hnil]

theorem beq_intCast_eq (i m : Nat) : ((i : Int) == (m : Int)) = (i == m) := by
  rw [Bool.eq_iff_iff]
  simp only [beq_iff_eq]
  omega

/-- C3, counterexample: for a 5-batch test pass the snapshot hook does not
fire on batch index 0 — `on_test_batch_end` compares against
`num_test_batches[0] - 1` and fires on the final batch, index 4. -/
theorem C3_test_snapshot_not_on_first_batch :
    on_test_batch_end_trigger 5 0 = false
    ∧ (List.range 5).filter (fun i => on_test_batch_end_trigger 5 i) = [4] := by
  decide

/-- C3, amended: over the batch indices `0..n-1` of an `n`-batch pass the
training snapshot fires exactly once, on index `n-1`; the validation
snapshot exactly once, on index `0`; and the test snapshot exactly once,
on the final index `n-1` (not on index 0 as claimed). -/
theorem C3_snapshot_trigger_policy (n : Nat) (hn : 1 ≤ n) :
    (List.range n).filter (fun i => on_train_batch_end_trigger n i) = [n - 1]
    ∧ (List.range n).filter (fun i => on_validation_batch_end_trigger i) = [0]
    ∧ (List.range n).filter (fun i => on_test_batch_end_trigger n i) = [n - 1] := by
  have hcast : (n : Int) - 1 = ((n - 1 : Nat) : Int) := by omega
  have htrain : ∀ i ∈ List.range n,
      on_train_batch_end_trigger n i = (i == n - 1) := by
    intro i _
    rw [on_train_batch_end_trigger, hcast, beq_intCast_eq]
  have htest : ∀ i ∈ List.range n,
      on_test_batch_end_trigger n i = (i == n - 1) := by
    intro i _
    rw [on_test_batch_end_trigger, hcast, beq_intCast_eq]
  have hval : ∀ i ∈ List.range n,
      on_validation_batch_end_trigger i = (i == 0) := by
    intro i _
    rw [on_validation_batch_end_trigger, show (0 : Int) = ((0 : Nat) : Int) from rfl,
      beq_intCast_eq]
  refine ⟨?_, ?_, ?_⟩
  · rw [List.filter_congr htrain]
    exact filter_range_beq n (n - 1) (by omega)
  · rw [List.filter_congr hval]
    exact filter_range_beq n 0 (by omega)
  · rw [List.filter_congr htest]
    exact filter_range_beq n (n - 1) (by omega)

/-- C3, witness: the amended trigger policy instantiated at a 5-batch
pass. -/
theorem C3_snapshot_trigger_policy_witness :
    1 ≤ 5
    ∧ ((List.range 5).filter (fun i => on_train_batch_end_trigger 5 i) = [5 - 1]
      ∧ (List.range 5).filter (fun i => on_validation_batch_end_trigger i) = [0]
      ∧ (List.range 5).filter (fun i => on_test_batch_end_trigger 5 i) = [5 - 1]) :=
  ⟨by decide, C3_snapshot_trigger_policy 5 (by decide)⟩

/-! ### C4 — target-transform resolution -/

/-- C4, counterexample: in `SALICONDataset.__getitem__` the map-transform
branch is nested inside `if self.image_transform is not None:`, so with no
`image_transform` a configured `map_transform` is never applied — the
target passes through unchanged instead of becoming `0 + 1 = 1`. -/
theorem C4_salicon_ignores_lone_map_transform :
    salicon_getitem_transforms (γ := ℕ) none (some (fun x => x + 1)) 0 0 = (0, 0)
    ∧ ((0 : ℕ), (0 : ℕ)) ≠ ((0 : ℕ), (1 : ℕ)) := ⟨rfl, by decide⟩

/-- C4, amended: `Imp1kDataset` resolves exactly as claimed (map_transform
first, image_transform as fallback, else pass through, a lone
map_transform applied); `SALICONDataset` applies that resolution only when
an image_transform is configured and otherwise passes both tensors through
unchanged, ignoring even a configured map_transform. -/
theorem C4_transform_resolution {γ : Type} (f g : γ → γ)
    (mt : Option (γ → γ)) (i t : γ) :
    imp1k_getitem_transforms (some f) (some g) i t = (f i, g t)
    ∧ imp1k_getitem_transforms none (some g) i t = (i, g t)
    ∧ imp1k_getitem_transforms (some f) none i t = (f i, f t)
    ∧ imp1k_getitem_transforms (none : Option (γ → γ)) none i t = (i, t)
    ∧ salicon_getitem_transforms (some f) (some g) i t = (f i, g t)
    ∧ salicon_getitem_transforms (some f) none i t = (f i, f t)
    ∧ salicon_getitem_transforms none mt i t = (i, t) :=
  ⟨rfl, rfl, rfl, rfl, rfl, rfl, rfl⟩

/-! ### C5 — empty batch sequence -/

/-- A trivial runner environment over rationals, for concrete instances. -/
def constEnv : RunnerEnv ℚ ℚ ℚ :=
  { forward := fun _ _ => 0, criterion := fun _ _ => 0, update := fun θ _ => θ }

/-- C5, counterexample: on an empty dataloader the runners fail with the
`ZeroDivisionError` of `epoch_loss / len(dataloader)` — no code path
raises the dedicated ZeroBatches error the claim requires. -/
theorem C5_no_dedicated_zero_batches_error :
    (validation constEnv 0 ([] : List (ℚ × ℚ))).2
        = Except.error PyError.zeroDivisionError
    ∧ (validation constEnv 0 ([] : List (ℚ × ℚ))).2
        ≠ Except.error PyError.zeroBatches
    ∧ (train constEnv 0 ([] : List (ℚ × ℚ))).2
        = Except.error PyError.zeroDivisionError := by
  refine ⟨rfl, ?_, rfl⟩
  intro h
  exact absurd (Except.error.inj h) (by decide)

/-- C5, amended: every runner invocation over zero batches fails with the
implicit `ZeroDivisionError` raised by the mean computation — it never
returns a mean loss at all, so in particular neither NaN nor a silent
zero. -/
theorem C5_empty_epoch_raises {σ α β : Type} (env : RunnerEnv σ α β) (θ : σ) :
    (train env θ []).2 = Except.error PyError.zeroDivisionError
    ∧ (validation env θ []).2 = Except.error PyError.zeroDivisionError
    ∧ (test env θ []).2 = Except.error PyError.zeroDivisionError
    ∧ ∀ q : ℚ, (train env θ []).2 ≠ Except.ok q :=
  ⟨rfl, rfl, rfl, fun _ h => Except.noConfusion h⟩

/-! ### C6 — validation and test leave the model parameters unchanged -/

/-- C6: `validation` and `test` run under `@torch.no_grad()` with no
backward pass and no optimizer step — in the embedding they have no
parameter-updating operation at all — so the parameters come back
unchanged and a repeated run returns the identical result, in particular
the identical `mean_loss`. -/
theorem C6_validation_test_no_mutation {σ α β : Type} (env : RunnerEnv σ α β)
    (θ : σ) (batches : List (α × β)) :
    (validation env θ batches).1 = θ
    ∧ (test env θ batches).1 = θ
    ∧ validation env (validation env θ batches).1 batches
        = validation env θ batches
    ∧ test env (test env θ batches).1 batches = test env θ batches :=
  ⟨rfl, rfl, rfl, rfl⟩

/-! ### C7 — the returned mean equals the sum of batch losses over N -/

theorem foldl_trainFold {σ α β : Type} (env : RunnerEnv σ α β) :
    ∀ (batches : List (α × β)) (θ : σ) (s : ℚ),
      batches.foldl (trainFold env) (θ, s)
        = (batches.foldl (fun θ' b => (trainStep env θ' b).1) θ,
           s + (trainLosses env θ batches).sum) := by
  intro batches
  induction batches with
  | nil => intro θ s; simp [trainLosses]
  | cons b bs ih =>
    intro θ s
    simp only [List.foldl_cons, trainLosses, List.sum_cons, trainFold]
    rw [ih]
    simp [add_assoc]

theorem foldl_add_map {δ : Type} (f : δ → ℚ) :
    ∀ (l : List δ) (s : ℚ),
      l.foldl (fun acc b => acc + f b) s = s + (l.map f).sum := by
  intro l
  induction l with
  | nil => intro s; simp
  | cons x xs ih => intro s; simp [ih, add_assoc]

/-- C7: over a non-empty batch sequence each runner returns exactly the
sum of its per-batch losses divided by the number of batches (for `train`
the losses are taken with the parameters as updated batch by batch). -/
theorem C7_mean_loss {σ α β : Type} (env : RunnerEnv σ α β) (θ : σ)
    (batches : List (α × β)) (h : batches ≠ []) :
    (train env θ batches).2
        = Except.ok ((trainLosses env θ batches).sum / batches.length)
    ∧ (validation env θ batches).2
        = Except.ok ((batches.map (validationStep env θ)).sum / batches.length)
    ∧ (test env θ batches).2
        = Except.ok ((batches.map (testStep env θ)).sum / batches.length) := by
  have hlen : batches.length ≠ 0 := by
    simpa [List.length_eq_zero] using h
  refine ⟨?_, ?_, ?_⟩
  · simp only [train, foldl_trainFold, pyDivMean, zero_add]
    rw [if_neg hlen]
  · simp only [validation, foldl_add_map, pyDivMean, zero_add]
    rw [if_neg hlen]
  · simp only [test, foldl_add_map, pyDivMean, zero_add]
    rw [if_neg hlen]

/-- A runner environment with data-dependent losses and genuine parameter
updates, for concrete instances. -/
def idEnv : RunnerEnv ℚ ℚ ℚ :=
  { forward := fun θ a => θ + a
    criterion := fun p g => p - g
    update := fun θ _ => θ + 1 }

/-- C7, witness: two batches with losses `[1, 3]` for `train` (the second
loss reflects the updated parameters) and `[1, 2]` for `validation` and
`test`. -/
theorem C7_mean_loss_witness :
    ([((1 : ℚ), (0 : ℚ)), ((2 : ℚ), (0 : ℚ))] ≠ ([] : List (ℚ × ℚ)))
    ∧ ((train idEnv 0 [((1 : ℚ), (0 : ℚ)), ((2 : ℚ), (0 : ℚ))]).2
        = Except.ok ((trainLosses idEnv 0
            [((1 : ℚ), (0 : ℚ)), ((2 : ℚ), (0 : ℚ))]).sum
          / ([((1 : ℚ), (0 : ℚ)), ((2 : ℚ), (0 : ℚ))] : List (ℚ × ℚ)).length)
      ∧ (validation idEnv 0 [((1 : ℚ), (0 : ℚ)), ((2 : ℚ), (0 : ℚ))]).2
        = Except.ok (([((1 : ℚ), (0 : ℚ)), ((2 : ℚ), (0 : ℚ))].map
            (validationStep idEnv 0)).sum
          / ([((1 : ℚ), (0 : ℚ)), ((2 : ℚ), (0 : ℚ))] : List (ℚ × ℚ)).length)
      ∧ (test idEnv 0 [((1 : ℚ), (0 : ℚ)), ((2 : ℚ), (0 : ℚ))]).2
        = Except.ok (([((1 : ℚ), (0 : ℚ)), ((2 : ℚ), (0 : ℚ))].map
            (testStep idEnv 0)).sum
          / ([((1 : ℚ), (0 : ℚ)), ((2 : ℚ), (0 : ℚ))] : List (ℚ × ℚ)).length)) :=
  ⟨List.cons_ne_nil _ _,
   C7_mean_loss idEnv 0 [((1 : ℚ), (0 : ℚ)), ((2 : ℚ), (0 : ℚ))]
     (List.cons_ne_nil _ _)⟩

/-! ### C9 — negative indices in catalog item access -/

theorem pyListGetItem_neg {δ : Type} (l : List δ) (i : Int)
    (h1 : -(l.length : Int) ≤ i) (h2 : i < 0) :
    pyListGetItem l i = l.get? ((l.length : Int) + i).toNat
    ∧ (pyListGetItem l i).isSome = true := by
  simp only [pyListGetItem]
  rw [if_pos h2, if_pos (by omega : (0 : Int) ≤ i + l.length)]
  constructor
  · rw [Int.add_comm]
  · have hlt : (i + (l.length : Int)).toNat < l.length := by omega
    rw [List.get?_eq_get hlt]
    rfl

theorem pyListGetItem_out {δ : Type} (l : List δ) (i : Int)
    (h : (l.length : Int) ≤ i ∨ i < -(l.length : Int)) :
    pyListGetItem l i = none := by
  simp only [pyListGetItem]
  rcases h with h | h
  · rw [if_neg (by omega : ¬ i < 0), if_pos (by omega : (0 : Int) ≤ i)]
    apply List.get?_eq_none.mpr
    omega
  · rw [if_pos (by omega : i < 0),
      if_neg (by omega : ¬ (0 : Int) ≤ i + l.length)]

/-- C9: both `__getitem__` implementations index
`image_map_pair_cache[index]` with Python list semantics, so a negative
index `-n ≤ i < 0` returns the entry at position `n + i` and only
`i ≥ n` or `i < -n` raises `IndexError`. -/
theorem C9_negative_index_access (s : Imp1kState) (u : SALICONState) (i : Int)
    (_hs : 0 < s.pairs.length) (_hu : 0 < u.pairs.length) :
    (-(s.pairs.length : Int) ≤ i → i < 0 →
      imp1k_getitem_paths s i = s.pairs.get? ((s.pairs.length : Int) + i).toNat
      ∧ (imp1k_getitem_paths s i).isSome = true)
    ∧ ((s.pairs.length : Int) ≤ i ∨ i < -(s.pairs.length : Int) →
      imp1k_getitem_paths s i = none)
    ∧ (-(u.pairs.length : Int) ≤ i → i < 0 →
      salicon_getitem_paths u i = u.pairs.get? ((u.pairs.length : Int) + i).toNat
      ∧ (salicon_getitem_paths u i).isSome = true)
    ∧ ((u.pairs.length : Int) ≤ i ∨ i < -(u.pairs.length : Int) →
      salicon_getitem_paths u i = none) :=
  ⟨fun h1 h2 => pyListGetItem_neg s.pairs i h1 h2,
   fun h => pyListGetItem_out s.pairs i h,
   fun h1 h2 => pyListGetItem_neg u.pairs i h1 h2,
   fun h => pyListGetItem_out u.pairs i h⟩

/-- C9, witness: a two-entry Imp1k catalog and a one-entry SALICON catalog
accessed at index `-1`. -/
theorem C9_negative_index_access_witness :
    0 < (Imp1kState.mk false
          [("i/a.jpg", "m/a.jpg"), ("i/b.jpg", "m/b.jpg")]).pairs.length
    ∧ 0 < (SALICONState.mk [("x/1.jpg", "y/1.png")]).pairs.length
    ∧ ((-((Imp1kState.mk false
            [("i/a.jpg", "m/a.jpg"), ("i/b.jpg", "m/b.jpg")]).pairs.length : Int)
          ≤ (-1 : Int) → (-1 : Int) < 0 →
        imp1k_getitem_paths (Imp1kState.mk false
            [("i/a.jpg", "m/a.jpg"), ("i/b.jpg", "m/b.jpg")]) (-1)
          = (Imp1kState.mk false
              [("i/a.jpg", "m/a.jpg"), ("i/b.jpg", "m/b.jpg")]).pairs.get?
            (((Imp1kState.mk false
                [("i/a.jpg", "m/a.jpg"), ("i/b.jpg", "m/b.jpg")]).pairs.length
                : Int) + (-1)).toNat
        ∧ (imp1k_getitem_paths (Imp1kState.mk false
            [("i/a.jpg", "m/a.jpg"), ("i/b.jpg", "m/b.jpg")]) (-1)).isSome = true)
      ∧ (((Imp1kState.mk false
            [("i/a.jpg", "m/a.jpg"), ("i/b.jpg", "m/b.jpg")]).pairs.length : Int)
          ≤ (-1 : Int)
          ∨ (-1 : Int) < -((Imp1kState.mk false
              [("i/a.jpg", "m/a.jpg"), ("i/b.jpg", "m/b.jpg")]).pairs.length : Int) →
        imp1k_getitem_paths (Imp1kState.mk false
            [("i/a.jpg", "m/a.jpg"), ("i/b.jpg", "m/b.jpg")]) (-1) = none)
      ∧ (-((SALICONState.mk [("x/1.jpg", "y/1.png")]).pairs.length : Int)
          ≤ (-1 : Int) → (-1 : Int) < 0 →
        salicon_getitem_paths (SALICONState.mk [("x/1.jpg", "y/1.png")]) (-1)
          = (SALICONState.mk [("x/1.jpg", "y/1.png")]).pairs.get?
            (((SALICONState.mk [("x/1.jpg", "y/1.png")]).pairs.length : Int)
              + (-1)).toNat
        ∧ (salicon_getitem_paths
            (SALICONState.mk [("x/1.jpg", "y/1.png")]) (-1)).isSome = true)
      ∧ (((SALICONState.mk [("x/1.jpg", "y/1.png")]).pairs.length : Int)
          ≤ (-1 : Int)
          ∨ (-1 : Int) < -((SALICONState.mk
              [("x/1.jpg", "y/1.png")]).pairs.length : Int) →
        salicon_getitem_paths
          (SALICONState.mk [("x/1.jpg", "y/1.png")]) (-1) = none)) :=
  ⟨by decide, by decide,
   C9_negative_index_access
     (Imp1kState.mk false [("i/a.jpg", "m/a.jpg"), ("i/b.jpg", "m/b.jpg")])
     (SALICONState.mk [("x/1.jpg", "y/1.png")]) (-1)
     (by decide) (by decide)⟩

/-! ### C10 — the training snapshot reflects post-update parameters -/

/-- C10: on the final training batch the hook recomputes the forward pass
after `training_step` has already run `manual_backward` and
`optimizer.step()`, so the snapshot prediction is the forward pass of the
updated parameters — and there are environments in which it differs from
the prediction that produced that batch's loss and metric updates. -/
theorem C10_snapshot_after_optimizer_step {σ α β : Type}
    (env : RunnerEnv σ α β) (θ : σ) (b : α × β) :
    (trainBatchThenHook env θ b).2
        = env.forward (training_step_params env θ b) b.1
    ∧ (trainBatchThenHook env θ b).1 = training_step_params env θ b
    ∧ ∃ (e : RunnerEnv ℚ ℚ ℚ) (p : ℚ) (c : ℚ × ℚ),
        (trainBatchThenHook e p c).2 ≠ training_step_predict e p c :=
  ⟨rfl, rfl,
   ⟨{ forward := fun p _ => p, criterion := fun _ _ => 0,
      update := fun p _ => p + 1 }, 0, (0, 0), by norm_num [trainBatchThenHook,
        training_step_params, training_step_predict]⟩⟩

end IllustSalmap
